import Mathlib

/-!
Shallow embedding of the identity / authorization / audit subsystem of the
Project ATLAS backend (directory backend/app).  Each definition mirrors one
Python function or SQLAlchemy model from the source; doc comments name the
source location.  Time is modelled in whole seconds (the JWT layer truncates
datetimes to integral unix seconds via timegm of utctimetuple).  Database
sessions are modelled by explicit state passing of a DB record; a commit is
the point where the model state is updated, and an exception raised after a
commit leaves the committed state in place, exactly as in the source.
-/

namespace Atlas

/-! ## Configuration (backend/app/config.py)

The Settings class declares defaults which may be overridden by the
environment; the model fixes the declared defaults, which is what the code
runs with absent any environment override. -/

structure Settings where
  secret_key : String := "change_me_in_production_super_secret_key"
  algorithm : String := "HS256"
  access_token_expire_minutes : Nat := 30
  deriving Repr, DecidableEq

/-- Source: config.py, `settings = Settings()`. -/
def settings : Settings := {}

/-! ## Credential Engine (backend/app/auth.py)

The password primitives delegate to passlib (CryptContext with the bcrypt
scheme).  The hash output is modelled abstractly: a bcrypt hash of password
p is the constructor `StoredHash.bcrypt p`, and verification of a bcrypt
hash succeeds exactly on the hashed password (bcrypt collisions are out of
model).  Passlib behaviour on bad input is part of its documented contract
and is modelled faithfully: CryptContext.verify raises TypeError when the
hash is None and UnknownHashError (a ValueError) when the hash string does
not parse as any configured scheme; it does not return false in either
case. -/

/-- A value stored in User.hashed_password: either a well-formed bcrypt hash
(of a given password) or a string that parses as no configured scheme. -/
inductive StoredHash
  | bcrypt (password : String)
  | malformed (raw : String)
  deriving Repr, DecidableEq

/-- Errors raised by passlib CryptContext.verify. -/
inductive PasslibError
  | typeErrorNoneHash
  | unknownHash (raw : String)
  deriving Repr, DecidableEq

/-- Source: auth.py `get_password_hash`. -/
def get_password_hash (password : String) : StoredHash :=
  StoredHash.bcrypt password

/-- Source: auth.py `verify_password` — a direct passthrough to
CryptContext.verify, hence it propagates passlib errors on an absent or
malformed hash rather than returning false. -/
def verify_password (plain_password : String) (hashed_password : Option StoredHash) :
    Except PasslibError Bool :=
  match hashed_password with
  | none => .error .typeErrorNoneHash
  | some (.malformed raw) => .error (.unknownHash raw)
  | some (.bcrypt p) => .ok (plain_password == p)

/-! ## JWT encode / decode (python-jose, as used by auth.py and the routers)

A token is modelled as its claim set plus the signing secret (a signed blob
abstractly carries exactly its claims; forging without the secret is out of
model, and `garbage` covers structurally invalid bearer strings).  Decoding
verifies the secret and then the exp claim; the python-jose check (leeway 0)
rejects exactly when exp < now. -/

/-- Claim set of the tokens the app issues: the payload dict keys sub, role,
user_id plus the exp claim added by create_access_token.  Absent dict keys
are `none` (payload.get returns None). -/
structure Claims where
  sub : Option String
  role : Option String
  user_id : Option Nat
  exp : Nat
  deriving Repr, DecidableEq

/-- The payload dict passed to create_access_token before exp is added. -/
structure TokenData where
  sub : Option String
  role : Option String
  user_id : Option Nat
  deriving Repr, DecidableEq

/-- A bearer-token string: either the output of jwt.encode with some secret,
or a string that is not a structurally valid signed token. -/
inductive TokenBlob
  | signed (claims : Claims) (secret : String)
  | garbage (raw : String)
  deriving Repr, DecidableEq

/-- Failure modes of jose jwt.decode (both are subclasses of JWTError). -/
inductive JWTError
  | expired
  | malformed
  deriving Repr, DecidableEq

/-- Source: auth.py `create_access_token`.  `expires_delta` is the optional
timedelta in seconds; when absent the configured default of
access_token_expire_minutes minutes applies.  `now` is datetime.utcnow() in
unix seconds. -/
def create_access_token (data : TokenData) (now : Nat) (expires_delta : Option Nat) :
    TokenBlob :=
  let expire :=
    match expires_delta with
    | some d => now + d
    | none => now + settings.access_token_expire_minutes * 60
  TokenBlob.signed
    { sub := data.sub, role := data.role, user_id := data.user_id, exp := expire }
    settings.secret_key

/-- Source: auth.py `create_device_token` — 90-day expiry, role forced to
"device", subject "device:" plus the device id. -/
def create_device_token (device_id : String) (user_id : Nat) (now : Nat) : TokenBlob :=
  create_access_token
    { sub := some ("device:" ++ device_id), role := some "device", user_id := some user_id }
    now (some (90 * 86400))

/-- Model of jose `jwt.decode(token, secret, algorithms=[...])`: signature
verification first (wrong secret or unstructured input raises a JWTError),
then the exp validation `exp < now` raises ExpiredSignatureError. -/
def decodeToken (tok : TokenBlob) (secret : String) (now : Nat) :
    Except JWTError Claims :=
  match tok with
  | .garbage _ => .error .malformed
  | .signed claims s =>
    if s = secret then
      if claims.exp < now then .error .expired else .ok claims
    else .error .malformed

/-! ## Data model (backend/app/models.py)

Server-generated columns that no claim reads (created_at, last_seen_at, the
audit row id and timestamp) are omitted from the row records; autoincrement
primary keys are modelled by per-table counters in the DB record. -/

/-- Source: models.py `User`. -/
structure User where
  id : Nat
  email : String
  hashed_password : Option StoredHash
  full_name : Option String
  role : String
  is_active : Bool
  deriving Repr, DecidableEq

/-- Source: models.py `Device`; `is_approved` defaults to true on insert. -/
structure Device where
  id : Nat
  device_id : String
  user_id : Nat
  label : Option String
  is_approved : Bool
  deriving Repr, DecidableEq

/-- Breakdown map of a submission: ordered key / value pairs of the JSON
object (values are opaque to the subsystem and modelled as strings). -/
abbrev ScoresMap := List (String × String)

/-- Source: models.py `ReadinessScore`.  The numeric overall score is pure
passthrough data (never computed on), modelled as an integer. -/
structure ReadinessScore where
  id : Nat
  user_id : Nat
  timestamp : Nat
  data : ScoresMap
  overall_score : Int
  confidence : String
  deriving Repr, DecidableEq

/-- Source: models.py `AuditLog`; the details JSON column holds the two keys
the middleware writes, flattened here. -/
structure AuditLog where
  actor_id : Option Nat
  action : String
  target_resource : String
  ip_address : String
  details_status_code : Nat
  details_user_agent : Option String
  deriving Repr, DecidableEq

/-- The relational store reachable from a session, with autoincrement
counters for ids assigned on insert. -/
structure DB where
  users : List User
  devices : List Device
  scores : List ReadinessScore
  audit_logs : List AuditLog
  next_user_id : Nat
  next_device_id : Nat
  next_score_id : Nat
  deriving Repr, DecidableEq

/-! ## Request / response schemas (backend/app/schemas.py) -/

/-- Source: schemas.py `UserCreate` (the `role` field has a default and is
never read by the routers, so it is omitted). -/
structure UserCreate where
  email : String
  password : String
  full_name : Option String
  deriving Repr, DecidableEq

/-- Source: schemas.py `DeviceLoginRequest`. -/
structure DeviceLoginRequest where
  device_id : String
  email : Option String
  full_name : Option String
  deriving Repr, DecidableEq

/-- Source: schemas.py `ReadinessScoreCreate`. -/
structure ReadinessScoreCreate where
  timestamp : Nat
  overall_score : Int
  confidence : String
  scores : ScoresMap
  deriving Repr, DecidableEq

/-- Source: schemas.py `Token` — the response shape of all three login
routes. -/
structure TokenOut where
  access_token : TokenBlob
  token_type : String
  deriving Repr, DecidableEq

/-- Result of a route handler: an HTTPException with status and detail, or a
non-HTTP exception escaping the handler (modelled for the passlib errors
that verify_password can raise). -/
inductive ApiError
  | http (status : Nat) (detail : String)
  | unhandled (e : PasslibError)
  deriving Repr, DecidableEq

deriving instance DecidableEq for Except

/-- Truthiness of a Python str-or-None value: None and the empty string are
falsy. -/
def truthy : Option String → Bool
  | some s => s ≠ ""
  | none => false

/-- Python `a or b` for a str-or-None `a` and str `b`. -/
def pyOr (a : Option String) (b : String) : String :=
  match a with
  | some s => if s ≠ "" then s else b
  | none => b

/-! ## Authentication router (backend/app/routers/auth.py)

Each handler takes the request body, the current time and the session state,
and returns the post-call state together with the response or the raised
error.  State committed before a raise stays committed, as in the source. -/

/-- Source: routers/auth.py `login_for_access_token`.  Unknown email with an
empty user table bootstraps the first admin; unknown email otherwise is 401;
a known email goes through verify_password (whose passlib errors escape the
handler unhandled). -/
def login_for_access_token (user_data : UserCreate) (now : Nat) (db : DB) :
    DB × Except ApiError TokenOut :=
  match db.users.find? (fun u => u.email == user_data.email) with
  | none =>
    if db.users.length = 0 then
      let user : User :=
        { id := db.next_user_id
          email := user_data.email
          hashed_password := some (get_password_hash user_data.password)
          full_name := some "System Admin"
          role := "admin"
          is_active := true }
      let db1 := { db with users := db.users ++ [user], next_user_id := db.next_user_id + 1 }
      (db1,
       .ok { access_token :=
               create_access_token
                 { sub := some user.email, role := some user.role, user_id := some user.id }
                 now none
             token_type := "bearer" })
    else
      (db, .error (.http 401 "Incorrect email or password"))
  | some user =>
    match verify_password user_data.password user.hashed_password with
    | .error e => (db, .error (.unhandled e))
    | .ok false => (db, .error (.http 401 "Incorrect email or password"))
    | .ok true =>
      (db,
       .ok { access_token :=
               create_access_token
                 { sub := some user.email, role := some user.role, user_id := some user.id }
                 now none
             token_type := "bearer" })

/-- Source: routers/auth.py `register_admin`: 400 on duplicate email, else a
new user with role forced to "admin" and a bearer token. -/
def register_admin (user_data : UserCreate) (now : Nat) (db : DB) :
    DB × Except ApiError TokenOut :=
  match db.users.find? (fun u => u.email == user_data.email) with
  | some _ => (db, .error (.http 400 "Email already registered"))
  | none =>
    let new_user : User :=
      { id := db.next_user_id
        email := user_data.email
        hashed_password := some (get_password_hash user_data.password)
        full_name := some (pyOr user_data.full_name "New Admin")
        role := "admin"
        is_active := true }
    let db1 := { db with users := db.users ++ [new_user], next_user_id := db.next_user_id + 1 }
    (db1,
     .ok { access_token :=
             create_access_token
               { sub := some new_user.email, role := some new_user.role,
                 user_id := some new_user.id }
               now none
           token_type := "bearer" })

/-- Email synthesized for an anonymous device user: the f-string
`device_{device_id[:8]}@atlas.local` in routers/auth.py. -/
def synthEmail (device_id : String) : String :=
  "device_" ++ device_id.take 8 ++ "@atlas.local"

/-- User-resolution step of device_login: the email lookup is only attempted
when the email field is truthy (present and non-empty). -/
def resolveUserByEmail (email : Option String) (db : DB) : Option User :=
  match email with
  | some e => if e ≠ "" then db.users.find? (fun u => u.email == e) else none
  | none => none

/-- Source: routers/auth.py `device_login`.  Resolves or auto-creates the
user (committing immediately), enriches a placeholder full_name (committing
immediately), resolves or auto-registers the device, and only then checks
the approval flag — so a 403 for an unapproved device is raised after the
user-side commits. -/
def device_login (req : DeviceLoginRequest) (now : Nat) (db : DB) :
    DB × Except ApiError TokenOut :=
  let found : Option User := resolveUserByEmail req.email db
  let resolved : User × DB :=
    match found with
    | none =>
      let u : User :=
        { id := db.next_user_id
          email := pyOr req.email (synthEmail req.device_id)
          hashed_password := none
          full_name := some (pyOr req.full_name "Anonymous Device")
          role := "soldier"
          is_active := true }
      (u, { db with users := db.users ++ [u], next_user_id := db.next_user_id + 1 })
    | some u =>
      if truthy req.full_name &&
          (u.full_name == some "Anonymous Device" || !(truthy u.full_name)) then
        let u1 := { u with full_name := req.full_name }
        (u1,
         { db with users := db.users.map (fun x => if x.id == u.id then u1 else x) })
      else (u, db)
  let user := resolved.1
  let db1 := resolved.2
  let devResolved : Device × DB :=
    match db1.devices.find? (fun dv => dv.device_id == req.device_id) with
    | none =>
      let dv : Device :=
        { id := db1.next_device_id
          device_id := req.device_id
          user_id := user.id
          label := some "Mobile Device"
          is_approved := true }
      (dv, { db1 with devices := db1.devices ++ [dv],
                      next_device_id := db1.next_device_id + 1 })
    | some dv => (dv, db1)
  let device := devResolved.1
  let db2 := devResolved.2
  if !device.is_approved then
    (db2, .error (.http 403 "Device not approved"))
  else
    (db2,
     .ok { access_token := create_device_token device.device_id user.id now
           token_type := "bearer" })

/-! ## Readiness router (backend/app/routers/readiness.py) -/

/-- Source: routers/readiness.py `get_current_user_id`.  Decode failures
(JWTError) become 401 "Could not validate credentials"; a payload without a
user_id claim raises 401 "Invalid credentials" (an HTTPException, which the
surrounding `except JWTError` does not catch); otherwise the pair
(user_id, role) is returned, role possibly absent. -/
def get_current_user_id (token : TokenBlob) (now : Nat) :
    Except ApiError (Nat × Option String) :=
  match decodeToken token settings.secret_key now with
  | .error _ => .error (.http 401 "Could not validate credentials")
  | .ok payload =>
    match payload.user_id with
    | none => .error (.http 401 "Invalid credentials")
    | some uid => .ok (uid, payload.role)

/-- Boolean substring check on character lists, used to model the Python
`needle in haystack` operator on strings. -/
def charsStartWith : List Char → List Char → Bool
  | [], _ => true
  | _ :: _, [] => false
  | a :: as, b :: bs => a == b && charsStartWith as bs

/-- True when `needle` occurs contiguously inside the list. -/
def charsContain (needle : List Char) : List Char → Bool
  | [] => needle.isEmpty
  | c :: cs => charsStartWith needle (c :: cs) || charsContain needle cs

/-- Python `needle in hay` for strings: contiguous substring containment. -/
def strContains (hay needle : String) : Bool :=
  charsContain needle.data hay.data

/-- Python str.lower, modelled character-wise (the denylist entries and the
JSON keys of interest are ASCII, on which the two agree). -/
def pyLower (s : String) : String :=
  String.mk (s.data.map Char.toLower)

/-- Source: routers/readiness.py `submit_readiness`, the denylist constant
`forbidden_keys`. -/
def forbidden_keys : List String := ["samples", "series", "ecg", "raw_oxygen"]

/-- One iteration of the denylist scan: the Python
`any(bad in key.lower() for bad in forbidden_keys)`. -/
def keyIsForbidden (key : String) : Bool :=
  forbidden_keys.any (fun bad => strContains (pyLower key) bad)

/-- The denylist loop over the submitted keys, returning the first offending
key (the loop raises at the first match). -/
def findForbiddenKey (keys : List String) : Option String :=
  keys.find? keyIsForbidden

/-- The role gate of submit_readiness: Python
`role not in ["device", "admin", "soldier"]`, negated.  A missing role claim
(None) is in no list and is therefore denied. -/
def submitRoleAllowed : Option String → Bool
  | some r => ["device", "admin", "soldier"].contains r
  | none => false

/-- Source: routers/readiness.py `submit_readiness`.  Role gate first (403
"Unauthorized role"), then the denylist scan (403 "Raw data submission
rejected"), then the insert and commit of one ReadinessScore row. -/
def submit_readiness (score_data : ReadinessScoreCreate)
    (auth_info : Nat × Option String) (db : DB) :
    DB × Except ApiError ReadinessScore :=
  let user_id := auth_info.1
  let role := auth_info.2
  if !submitRoleAllowed role then
    (db, .error (.http 403 "Unauthorized role"))
  else
    match findForbiddenKey (score_data.scores.map Prod.fst) with
    | some _ => (db, .error (.http 403 "Raw data submission rejected"))
    | none =>
      let new_score : ReadinessScore :=
        { id := db.next_score_id
          user_id := user_id
          timestamp := score_data.timestamp
          data := score_data.scores
          overall_score := score_data.overall_score
          confidence := score_data.confidence }
      ({ db with scores := db.scores ++ [new_score],
                 next_score_id := db.next_score_id + 1 },
       .ok new_score)

/-- Source: routers/readiness.py `get_history`.  Device-role tokens are
rejected with 403; otherwise the scores of the authenticated user are
returned (the admin target-override branch is a no-op `pass` in the
source). -/
def get_history (user_id_param : Option String) (auth_info : Nat × Option String)
    (db : DB) : Except ApiError (List ReadinessScore) :=
  let current_user_id := auth_info.1
  let role := auth_info.2
  if role == some "device" then
    .error (.http 403 "Devices cannot read history")
  else
    .ok (db.scores.filter (fun s => s.user_id == current_user_id))

/-! ## Audit middleware (backend/app/middleware.py)

The dispatch method first runs the wrapped handler, then, for mutating
methods only, calls log_action, whose whole body sits in a try/except that
only prints on failure.  The audit write uses its own SessionLocal session:
the model makes this structural by giving dispatch only the audit-log table
and the already-computed handler response — it cannot touch the request
session or the response.  `commitFails` models any exception inside the try
block (session creation or commit). -/

/-- The Authorization header of a request, as the middleware parses it:
absent, present but not of the form "Bearer token", or a bearer token. -/
inductive AuthHeader
  | absent
  | notBearer (value : String)
  | bearer (token : TokenBlob)
  deriving Repr, DecidableEq

/-- The request fields the middleware reads. -/
structure Request where
  method : String
  path : String
  authHeader : AuthHeader
  client_host : String
  user_agent : Option String
  deriving Repr, DecidableEq

/-- The response fields visible to the middleware; body is opaque payload
modelled as a string. -/
structure Response where
  status_code : Nat
  body : String
  deriving Repr, DecidableEq

/-- Best-effort actor extraction in log_action: jwt.decode of the bearer
token under its own try/except, so a missing header, a non-bearer header or
any decode failure yields None; otherwise payload.get("user_id"). -/
def auditActorId (h : AuthHeader) (now : Nat) : Option Nat :=
  match h with
  | .bearer tok =>
    match decodeToken tok settings.secret_key now with
    | .ok payload => payload.user_id
    | .error _ => none
  | _ => none

/-- Source: middleware.py `AuditMiddleware.log_action`: builds one AuditLog
row and commits it in an independent session; any exception is swallowed,
leaving the audit table unchanged. -/
def log_action (req : Request) (resp : Response) (now : Nat) (commitFails : Bool)
    (auditRows : List AuditLog) : List AuditLog :=
  if commitFails then auditRows
  else
    auditRows ++
      [{ actor_id := auditActorId req.authHeader now
         action := req.method ++ " " ++ req.path
         target_resource := req.path
         ip_address := req.client_host
         details_status_code := resp.status_code
         details_user_agent := req.user_agent }]

/-- Source: middleware.py `AuditMiddleware.dispatch`: runs the handler (its
response `resp` is an input here), then logs only for methods in
["POST", "PUT", "DELETE"], and returns the handler response unchanged. -/
def dispatch (req : Request) (resp : Response) (now : Nat) (commitFails : Bool)
    (auditRows : List AuditLog) : Response × List AuditLog :=
  if ["POST", "PUT", "DELETE"].contains req.method then
    (resp, log_action req resp now commitFails auditRows)
  else
    (resp, auditRows)

/-! ## Application assembly (backend/app/main.py)

main.py builds the FastAPI app with two include_router calls and a static
mount.  It contains no app.add_middleware call, and middleware.py is
imported by no module of the application, so the middleware stack of the
assembled app is empty and AuditMiddleware.dispatch is on no request
path. -/

/-- The middleware classes the codebase defines: middleware.py defines
exactly AuditMiddleware. -/
inductive MiddlewareClass
  | audit
  deriving Repr, DecidableEq

/-- Source: main.py — the middleware registered on the assembled app.  No
add_middleware call exists anywhere in the codebase, so the stack is
empty. -/
def app_middleware : List MiddlewareClass := []

/-- Audit rows present after the assembled app processes one request: each
registered middleware of the audit class runs AuditMiddleware.dispatch over
the audit table; with an empty stack the table passes through untouched. -/
def app_audit_rows (req : Request) (resp : Response) (now : Nat)
    (commitFails : Bool) (auditRows : List AuditLog) : List AuditLog :=
  app_middleware.foldl
    (fun rows mw =>
      match mw with
      | .audit => (dispatch req resp now commitFails rows).2)
    auditRows

/-! ## Concrete fixtures shared by witnesses and counterexamples -/

/-- A session over an empty store, as on first startup. -/
def emptyDB : DB :=
  { users := [], devices := [], scores := [], audit_logs := [],
    next_user_id := 1, next_device_id := 1, next_score_id := 1 }

/-! ## Claims -/

/-- C1: for a login whose email matches no user, an empty user table
bootstraps a new admin: the created user carries role "admin" and the hash
of the supplied password, exactly one admin exists afterwards, and the
returned token decodes successfully at issue time; with a non-empty user
table the login fails 401 and the store is unchanged. -/
theorem login_bootstrap_first_admin (d : UserCreate) (db : DB) (now : Nat)
    (hnone : db.users.find? (fun u => u.email == d.email) = none) :
    (db.users = [] →
      login_for_access_token d now db =
        ({ db with
             users := [{ id := db.next_user_id, email := d.email,
                         hashed_password := some (get_password_hash d.password),
                         full_name := some "System Admin", role := "admin",
                         is_active := true }],
             next_user_id := db.next_user_id + 1 },
         Except.ok
           { access_token := TokenBlob.signed
               { sub := some d.email, role := some "admin",
                 user_id := some db.next_user_id, exp := now + 1800 }
               settings.secret_key,
             token_type := "bearer" }) ∧
      ((login_for_access_token d now db).1.users.filter
          (fun u => u.role == "admin")).length = 1 ∧
      decodeToken
        (TokenBlob.signed
          { sub := some d.email, role := some "admin",
            user_id := some db.next_user_id, exp := now + 1800 }
          settings.secret_key)
        settings.secret_key now =
        Except.ok
          { sub := some d.email, role := some "admin",
            user_id := some db.next_user_id, exp := now + 1800 }) ∧
    (db.users ≠ [] →
      login_for_access_token d now db =
        (db, Except.error (ApiError.http 401 "Incorrect email or password"))) := by
  constructor
  · intro h
    have h1 : login_for_access_token d now db =
        ({ db with
             users := [{ id := db.next_user_id, email := d.email,
                         hashed_password := some (get_password_hash d.password),
                         full_name := some "System Admin", role := "admin",
                         is_active := true }],
             next_user_id := db.next_user_id + 1 },
         Except.ok
           { access_token := TokenBlob.signed
               { sub := some d.email, role := some "admin",
                 user_id := some db.next_user_id, exp := now + 1800 }
               settings.secret_key,
             token_type := "bearer" }) := by
      simp [login_for_access_token, h, create_access_token, settings]
    refine ⟨h1, ?_, ?_⟩
    · rw [h1]
      simp
    · have hlt : ¬ (now + 1800 < now) := by omega
      simp [decodeToken, hlt]
  · intro h
    have hlen : ¬ (db.users.length = 0) := by
      simpa [List.length_eq_zero] using h
    simp [login_for_access_token, hnone, hlen]

/-- Witness for C1: bootstrap login on the empty store at a concrete
input. -/
theorem login_bootstrap_first_admin_witness :
    (emptyDB.users.find? (fun u => u.email == "boot@atlas.mil") = none) ∧
    emptyDB.users = [] ∧
    login_for_access_token ⟨"boot@atlas.mil", "pw1", none⟩ 0 emptyDB =
      ({ emptyDB with
           users := [{ id := 1, email := "boot@atlas.mil",
                       hashed_password := some (get_password_hash "pw1"),
                       full_name := some "System Admin", role := "admin",
                       is_active := true }],
           next_user_id := 2 },
       Except.ok
         { access_token := TokenBlob.signed
             { sub := some "boot@atlas.mil", role := some "admin",
               user_id := some 1, exp := 1800 }
             settings.secret_key,
           token_type := "bearer" }) :=
  ⟨rfl, rfl,
   ((login_bootstrap_first_admin ⟨"boot@atlas.mil", "pw1", none⟩ emptyDB 0 rfl).1 rfl).1⟩

/-- C2: a submission whose breakdown map has a key that case-insensitively
contains one of the denylisted substrings is rejected with 403 and persists
nothing (the store is returned unchanged); a payload none of whose keys
contains a denylisted substring passes the denylist check. -/
theorem submit_denylist_filter (sd : ReadinessScoreCreate)
    (ai : Nat × Option String) (db : DB) :
    ((∃ k ∈ sd.scores.map Prod.fst, ∃ bad ∈ forbidden_keys,
        strContains (pyLower k) bad = true) →
      ∃ detail, submit_readiness sd ai db =
        (db, Except.error (ApiError.http 403 detail))) ∧
    ((∀ k ∈ sd.scores.map Prod.fst, ∀ bad ∈ forbidden_keys,
        strContains (pyLower k) bad = false) →
      findForbiddenKey (sd.scores.map Prod.fst) = none) := by
  constructor
  · rintro ⟨k, hk, bad, hbad, hc⟩
    have hkf : keyIsForbidden k = true :=
      List.any_eq_true.mpr ⟨bad, hbad, hc⟩
    have hsome : (findForbiddenKey (sd.scores.map Prod.fst)).isSome = true := by
      simpa [findForbiddenKey] using List.find?_isSome.mpr ⟨k, hk, hkf⟩
    obtain ⟨k', hk'⟩ := Option.isSome_iff_exists.mp hsome
    cases hrole : submitRoleAllowed ai.2 with
    | false => exact ⟨"Unauthorized role", by simp [submit_readiness, hrole]⟩
    | true => exact ⟨"Raw data submission rejected", by simp [submit_readiness, hrole, hk']⟩
  · intro hclean
    refine List.find?_eq_none.mpr ?_
    intro k hk hcontra
    obtain ⟨bad, hbad, hc⟩ :=
      List.any_eq_true.mp (by simpa [keyIsForbidden] using hcontra)
    rw [hclean k hk bad hbad] at hc
    simp at hc

/-- Witness for C2: a key containing "ecg" is rejected on the concrete empty
store; a map of computed-only keys passes the check. -/
theorem submit_denylist_filter_witness :
    (∃ k ∈ ([("ecg_trace", "x")] : ScoresMap).map Prod.fst,
      ∃ bad ∈ forbidden_keys, strContains (pyLower k) bad = true) ∧
    (∃ detail,
      submit_readiness ⟨0, 75, "high", [("ecg_trace", "x")]⟩ (1, some "device") emptyDB =
        (emptyDB, Except.error (ApiError.http 403 detail))) ∧
    findForbiddenKey (([("hrv", "1"), ("sleep_quality", "2")] : ScoresMap).map Prod.fst) =
      none := by
  refine ⟨⟨"ecg_trace", by decide, "ecg", by decide, by decide⟩, ?_, ?_⟩
  · exact (submit_denylist_filter ⟨0, 75, "high", [("ecg_trace", "x")]⟩
      (1, some "device") emptyDB).1 ⟨"ecg_trace", by decide, "ecg", by decide, by decide⟩
  · exact (submit_denylist_filter ⟨0, 75, "hrv", [("hrv", "1"), ("sleep_quality", "2")]⟩
      (1, some "device") emptyDB).2 (by decide)

/-- C3: a device-role principal is always refused a history read with 403,
while its score submission succeeds whenever the payload passes the
denylist; and the submit role gate accepts exactly the roles device, admin
and soldier (a missing role claim is denied). -/
theorem device_role_gates (uid : Nat) (db : DB) (p : Option String)
    (sd : ReadinessScoreCreate)
    (hclean : findForbiddenKey (sd.scores.map Prod.fst) = none) :
    get_history p (uid, some "device") db =
      Except.error (ApiError.http 403 "Devices cannot read history") ∧
    submit_readiness sd (uid, some "device") db =
      ({ db with
           scores := db.scores ++
             [{ id := db.next_score_id, user_id := uid, timestamp := sd.timestamp,
                data := sd.scores, overall_score := sd.overall_score,
                confidence := sd.confidence }],
           next_score_id := db.next_score_id + 1 },
       Except.ok
         { id := db.next_score_id, user_id := uid, timestamp := sd.timestamp,
           data := sd.scores, overall_score := sd.overall_score,
           confidence := sd.confidence }) ∧
    (∀ r : String, submitRoleAllowed (some r) = true ↔
      (r = "device" ∨ r = "admin" ∨ r = "soldier")) ∧
    submitRoleAllowed none = false := by
  refine ⟨?_, ?_, ?_, rfl⟩
  · simp [get_history]
  · simp [submit_readiness, submitRoleAllowed, hclean]
  · intro r
    simp [submitRoleAllowed, List.contains, List.elem_iff]

/-- Witness for C3: concrete clean submission by a device token next to the
always-403 history read. -/
theorem device_role_gates_witness :
    findForbiddenKey (([("hrv", "61")] : ScoresMap).map Prod.fst) = none ∧
    get_history none (4, some "device") emptyDB =
      Except.error (ApiError.http 403 "Devices cannot read history") ∧
    submit_readiness ⟨10, 82, "high", [("hrv", "61")]⟩ (4, some "device") emptyDB =
      ({ emptyDB with
           scores := [{ id := 1, user_id := 4, timestamp := 10, data := [("hrv", "61")],
                        overall_score := 82, confidence := "high" }],
           next_score_id := 2 },
       Except.ok
         { id := 1, user_id := 4, timestamp := 10, data := [("hrv", "61")],
           overall_score := 82, confidence := "high" }) := by
  have h := device_role_gates 4 emptyDB none ⟨10, 82, "high", [("hrv", "61")]⟩ (by decide)
  exact ⟨by decide, h.1, h.2.1⟩

/-- C4: create_access_token always writes an exp claim of issue time plus the
TTL (default TTL 30 minutes); the decoder rejects the token one second past
expiry as expired, accepts it one second before, and accepts no token whose
exp claim lies before the decode time. -/
theorem token_expiry_enforced (data : TokenData) (now t : Nat) (ht : 1 ≤ t) :
    create_access_token data now (some t) =
      TokenBlob.signed
        { sub := data.sub, role := data.role, user_id := data.user_id, exp := now + t }
        settings.secret_key ∧
    decodeToken (create_access_token data now (some t)) settings.secret_key
      (now + t + 1) = Except.error JWTError.expired ∧
    decodeToken (create_access_token data now (some t)) settings.secret_key
      (now + t - 1) =
      Except.ok { sub := data.sub, role := data.role, user_id := data.user_id,
                  exp := now + t } ∧
    (∀ tok c now2, decodeToken tok settings.secret_key now2 = Except.ok c →
      now2 ≤ c.exp) ∧
    settings.access_token_expire_minutes = 30 ∧
    create_access_token data now none = create_access_token data now (some (30 * 60)) := by
  refine ⟨rfl, ?_, ?_, ?_, rfl, rfl⟩
  · have hlt : now + t < now + t + 1 := by omega
    simp [create_access_token, decodeToken, hlt]
  · have hlt : ¬ (now + t < now + t - 1) := by omega
    simp [create_access_token, decodeToken, hlt]
  · intro tok c now2 h
    cases tok with
    | garbage raw => simp [decodeToken] at h
    | signed claims s =>
      simp only [decodeToken] at h
      split at h
      · split at h
        · simp at h
        · next hlt =>
          cases h
          omega
      · simp at h

/-- Witness for C4: a 60-second token issued at time 1000 is expired at 1061
and valid at 1059. -/
theorem token_expiry_enforced_witness :
    1 ≤ 60 ∧
    decodeToken (create_access_token ⟨some "a@b.c", some "admin", some 1⟩ 1000 (some 60))
      settings.secret_key 1061 = Except.error JWTError.expired ∧
    decodeToken (create_access_token ⟨some "a@b.c", some "admin", some 1⟩ 1000 (some 60))
      settings.secret_key 1059 =
      Except.ok { sub := some "a@b.c", role := some "admin", user_id := some 1,
                  exp := 1060 } := by
  have h := token_expiry_enforced ⟨some "a@b.c", some "admin", some 1⟩ 1000 60 (by decide)
  exact ⟨by decide, h.2.1, h.2.2.1⟩

/-- C5: registration with an existing email fails 400 leaving the store
unchanged; otherwise one new user with role "admin" is created and a token
response of shape access_token plus token_type "bearer" is returned. -/
theorem register_conflict_or_admin (d : UserCreate) (db : DB) (now : Nat) :
    ((∃ u, db.users.find? (fun x => x.email == d.email) = some u) →
      register_admin d now db =
        (db, Except.error (ApiError.http 400 "Email already registered"))) ∧
    (db.users.find? (fun x => x.email == d.email) = none →
      register_admin d now db =
        ({ db with
             users := db.users ++
               [{ id := db.next_user_id, email := d.email,
                  hashed_password := some (get_password_hash d.password),
                  full_name := some (pyOr d.full_name "New Admin"),
                  role := "admin", is_active := true }],
             next_user_id := db.next_user_id + 1 },
         Except.ok
           { access_token := TokenBlob.signed
               { sub := some d.email, role := some "admin",
                 user_id := some db.next_user_id, exp := now + 1800 }
               settings.secret_key,
             token_type := "bearer" })) := by
  constructor
  · rintro ⟨u, hu⟩
    simp [register_admin, hu]
  · intro h
    simp [register_admin, h, create_access_token, settings]

/-- Witness for C5: fresh registration on the empty store, then the 400 on
the duplicate email. -/
theorem register_conflict_or_admin_witness :
    emptyDB.users.find? (fun x => x.email == "admin@x.com") = none ∧
    register_admin ⟨"admin@x.com", "pw1", none⟩ 7 emptyDB =
      ({ emptyDB with
           users := [{ id := 1, email := "admin@x.com",
                       hashed_password := some (get_password_hash "pw1"),
                       full_name := some (pyOr none "New Admin"),
                       role := "admin", is_active := true }],
           next_user_id := 2 },
       Except.ok
         { access_token := TokenBlob.signed
             { sub := some "admin@x.com", role := some "admin",
               user_id := some 1, exp := 1807 }
             settings.secret_key,
           token_type := "bearer" }) ∧
    register_admin ⟨"admin@x.com", "pw2", none⟩ 9
        (register_admin ⟨"admin@x.com", "pw1", none⟩ 7 emptyDB).1 =
      ((register_admin ⟨"admin@x.com", "pw1", none⟩ 7 emptyDB).1,
       Except.error (ApiError.http 400 "Email already registered")) := by
  refine ⟨rfl, ?_, ?_⟩
  · exact (register_conflict_or_admin ⟨"admin@x.com", "pw1", none⟩ emptyDB 7).2 rfl
  · exact (register_conflict_or_admin ⟨"admin@x.com", "pw2", none⟩
      (register_admin ⟨"admin@x.com", "pw1", none⟩ 7 emptyDB).1 9).1
      ⟨{ id := 1, email := "admin@x.com",
         hashed_password := some (get_password_hash "pw1"),
         full_name := some "New Admin", role := "admin", is_active := true },
       by decide⟩

/-- C7 counterexample: device-login with device_id "ABC123" and no email
creates the user with email device_ABC123@atlas.local — the case of the
device id is preserved — which is not of the form device_abc123@*; the role
is soldier as claimed. -/
theorem device_login_email_case_counterexample :
    (device_login ⟨"ABC123", none, none⟩ 0 emptyDB).1.users.map User.email =
      ["device_ABC123@atlas.local"] ∧
    "device_ABC123@atlas.local".take 14 ≠ "device_abc123@" ∧
    (device_login ⟨"ABC123", none, none⟩ 0 emptyDB).1.users.map User.role =
      ["soldier"] := by
  refine ⟨by decide, by decide, by decide⟩

/-- C7 (amended): device-login for an unseen device with no email creates a
soldier user whose synthesized email is "device_" plus the first eight
characters of the device id with case preserved plus "@atlas.local", and
returns a device token with claims sub = "device:" + device id,
role = "device", user_id of the new user, and expiry fixed at 90 days
(7776000 seconds). -/
theorem device_login_unseen_device_no_email (device_id : String) (fn : Option String)
    (db : DB) (now : Nat)
    (hdev : db.devices.find? (fun dv => dv.device_id == device_id) = none) :
    device_login ⟨device_id, none, fn⟩ now db =
      ({ db with
           users := db.users ++
             [{ id := db.next_user_id, email := synthEmail device_id,
                hashed_password := none,
                full_name := some (pyOr fn "Anonymous Device"),
                role := "soldier", is_active := true }],
           next_user_id := db.next_user_id + 1,
           devices := db.devices ++
             [{ id := db.next_device_id, device_id := device_id,
                user_id := db.next_user_id, label := some "Mobile Device",
                is_approved := true }],
           next_device_id := db.next_device_id + 1 },
       Except.ok
         { access_token := TokenBlob.signed
             { sub := some ("device:" ++ device_id), role := some "device",
               user_id := some db.next_user_id, exp := now + 7776000 }
             settings.secret_key,
           token_type := "bearer" }) ∧
    synthEmail device_id = "device_" ++ device_id.take 8 ++ "@atlas.local" := by
  refine ⟨?_, rfl⟩
  simp [device_login, resolveUserByEmail, hdev, create_device_token,
    create_access_token, pyOr]

/-- Witness for the amended C7: the concrete unseen device "ABC123". -/
theorem device_login_unseen_device_no_email_witness :
    emptyDB.devices.find? (fun dv => dv.device_id == "ABC123") = none ∧
    device_login ⟨"ABC123", none, none⟩ 100 emptyDB =
      ({ emptyDB with
           users := [{ id := 1, email := "device_ABC123@atlas.local",
                       hashed_password := none,
                       full_name := some "Anonymous Device",
                       role := "soldier", is_active := true }],
           next_user_id := 2,
           devices := [{ id := 1, device_id := "ABC123", user_id := 1,
                         label := some "Mobile Device", is_approved := true }],
           next_device_id := 2 },
       Except.ok
         { access_token := TokenBlob.signed
             { sub := some "device:ABC123", role := some "device",
               user_id := some 1, exp := 7776100 }
             settings.secret_key,
           token_type := "bearer" }) := by
  have h := (device_login_unseen_device_no_email "ABC123" none emptyDB 100 rfl).1
  rw [h]
  decide

/-- A concrete mutating request with no Authorization header. -/
def postReq : Request :=
  { method := "POST", path := "/api/v1/readiness", authHeader := AuthHeader.absent,
    client_host := "10.0.0.5", user_agent := some "atlas-mobile/1.0" }

/-- C8: the AuditMiddleware body would append exactly one row (actor_id none
for a tokenless request) when invoked on a mutating request, but main.py
registers no middleware at all, so the assembled app invokes dispatch on no
request path and a concrete POST leaves the audit table empty — the program
writes no audit row for any mutating request. -/
theorem audit_middleware_not_registered :
    app_middleware = [] ∧
    app_audit_rows postReq ⟨201, "created"⟩ 0 false [] = [] ∧
    (dispatch postReq ⟨201, "created"⟩ 0 false []).2 =
      [{ actor_id := none, action := "POST /api/v1/readiness",
         target_resource := "/api/v1/readiness", ip_address := "10.0.0.5",
         details_status_code := 201, details_user_agent := some "atlas-mobile/1.0" }] ∧
    (dispatch postReq ⟨201, "created"⟩ 0 false []).1 = ⟨201, "created"⟩ := by
  refine ⟨rfl, rfl, by decide, rfl⟩

/-- C9: the guard maps a decoded payload without user_id to the 401 invalid
credentials error, a decode failure (expired or malformed) to the 401
could-not-validate error, and returns (user_id, role) on success; a role
denied by a gate yields a 403 error, a value distinct from both 401 errors,
which are also distinct from each other. -/
theorem authenticate_error_taxonomy (now : Nat) :
    (∀ tok c, decodeToken tok settings.secret_key now = Except.ok c →
      c.user_id = none →
      get_current_user_id tok now =
        Except.error (ApiError.http 401 "Invalid credentials")) ∧
    (∀ tok c uid, decodeToken tok settings.secret_key now = Except.ok c →
      c.user_id = some uid →
      get_current_user_id tok now = Except.ok (uid, c.role)) ∧
    (∀ tok e, decodeToken tok settings.secret_key now = Except.error e →
      get_current_user_id tok now =
        Except.error (ApiError.http 401 "Could not validate credentials")) ∧
    (∀ sd uid r db, submitRoleAllowed r = false →
      submit_readiness sd (uid, r) db =
        (db, Except.error (ApiError.http 403 "Unauthorized role"))) ∧
    (∀ uid db p, get_history p (uid, some "device") db =
      Except.error (ApiError.http 403 "Devices cannot read history")) ∧
    (ApiError.http 403 "Unauthorized role" ≠ ApiError.http 401 "Invalid credentials" ∧
     ApiError.http 403 "Unauthorized role" ≠
       ApiError.http 401 "Could not validate credentials" ∧
     ApiError.http 401 "Invalid credentials" ≠
       ApiError.http 401 "Could not validate credentials") := by
  refine ⟨?_, ?_, ?_, ?_, ?_, by decide, by decide, by decide⟩
  · intro tok c h hc
    simp [get_current_user_id, h, hc]
  · intro tok c uid h hc
    simp [get_current_user_id, h, hc]
  · intro tok e h
    simp [get_current_user_id, h]
  · intro sd uid r db h
    simp [submit_readiness, h]
  · intro uid db p
    simp [get_history]

/-- Witness for C9: a decodable token without user_id, a garbage token, and a
denied role, each at concrete inputs. -/
theorem authenticate_error_taxonomy_witness :
    decodeToken
        (TokenBlob.signed
          { sub := some "a@b.c", role := some "admin", user_id := none, exp := 100 }
          settings.secret_key) settings.secret_key 50 =
      Except.ok
        { sub := some "a@b.c", role := some "admin", user_id := none, exp := 100 } ∧
    get_current_user_id
        (TokenBlob.signed
          { sub := some "a@b.c", role := some "admin", user_id := none, exp := 100 }
          settings.secret_key) 50 =
      Except.error (ApiError.http 401 "Invalid credentials") ∧
    get_current_user_id (TokenBlob.garbage "not-a-jwt") 50 =
      Except.error (ApiError.http 401 "Could not validate credentials") ∧
    submit_readiness ⟨0, 1, "low", []⟩ (9, some "commander") emptyDB =
      (emptyDB, Except.error (ApiError.http 403 "Unauthorized role")) := by
  have h := authenticate_error_taxonomy 50
  refine ⟨by decide, ?_, ?_, ?_⟩
  · exact h.1
      (TokenBlob.signed
        { sub := some "a@b.c", role := some "admin", user_id := none, exp := 100 }
        settings.secret_key)
      { sub := some "a@b.c", role := some "admin", user_id := none, exp := 100 }
      (by decide) rfl
  · exact h.2.2.1 (TokenBlob.garbage "not-a-jwt") JWTError.malformed rfl
  · exact h.2.2.2.1 ⟨0, 1, "low", []⟩ 9 (some "commander") emptyDB (by decide)

/-- C10: when device-login fails 403 on an unapproved device, the user-side
work committed earlier in the same call survives: an anonymous user created
for an unresolved email stays in the store, and a full_name enrichment of a
resolved placeholder user stays applied. -/
theorem device_login_unapproved_commits_survive
    (req : DeviceLoginRequest) (db : DB) (now : Nat) (dv : Device)
    (hdev : db.devices.find? (fun x => x.device_id == req.device_id) = some dv)
    (happ : dv.is_approved = false) :
    (resolveUserByEmail req.email db = none →
      device_login req now db =
        ({ db with
             users := db.users ++
               [{ id := db.next_user_id,
                  email := pyOr req.email (synthEmail req.device_id),
                  hashed_password := none,
                  full_name := some (pyOr req.full_name "Anonymous Device"),
                  role := "soldier", is_active := true }],
             next_user_id := db.next_user_id + 1 },
         Except.error (ApiError.http 403 "Device not approved")) ∧
      { id := db.next_user_id,
        email := pyOr req.email (synthEmail req.device_id),
        hashed_password := none,
        full_name := some (pyOr req.full_name "Anonymous Device"),
        role := "soldier", is_active := true } ∈
          (device_login req now db).1.users) ∧
    (∀ u, resolveUserByEmail req.email db = some u →
      truthy req.full_name = true →
      (u.full_name == some "Anonymous Device" || !(truthy u.full_name)) = true →
      device_login req now db =
        ({ db with
             users := db.users.map
               (fun x => if x.id == u.id then { u with full_name := req.full_name }
                         else x) },
         Except.error (ApiError.http 403 "Device not approved"))) := by
  constructor
  · intro h
    have h1 : device_login req now db =
        ({ db with
             users := db.users ++
               [{ id := db.next_user_id,
                  email := pyOr req.email (synthEmail req.device_id),
                  hashed_password := none,
                  full_name := some (pyOr req.full_name "Anonymous Device"),
                  role := "soldier", is_active := true }],
             next_user_id := db.next_user_id + 1 },
         Except.error (ApiError.http 403 "Device not approved")) := by
      simp [device_login, h, hdev, happ]
    refine ⟨h1, ?_⟩
    rw [h1]
    simp
  · intro u hu hfn hplace
    simp [device_login, hu, hfn, hplace, hdev, happ]

/-- A store whose only device "TAG7" is unapproved. -/
def dbUnapproved : DB :=
  { emptyDB with
      devices := [{ id := 1, device_id := "TAG7", user_id := 1,
                    label := some "Mobile Device", is_approved := false }],
      next_device_id := 2 }

/-- Witness for C10: the concrete unapproved device "TAG7" with no email —
the call fails 403 yet the anonymous user is in the returned store. -/
theorem device_login_unapproved_commits_survive_witness :
    dbUnapproved.devices.find? (fun x => x.device_id == "TAG7") =
      some { id := 1, device_id := "TAG7", user_id := 1,
             label := some "Mobile Device", is_approved := false } ∧
    resolveUserByEmail none dbUnapproved = none ∧
    device_login ⟨"TAG7", none, none⟩ 0 dbUnapproved =
      ({ dbUnapproved with
           users := [{ id := 1, email := "device_TAG7@atlas.local",
                       hashed_password := none,
                       full_name := some "Anonymous Device",
                       role := "soldier", is_active := true }],
           next_user_id := 2 },
       Except.error (ApiError.http 403 "Device not approved")) := by
  have h := ((device_login_unapproved_commits_survive ⟨"TAG7", none, none⟩
    dbUnapproved 0 _ rfl rfl).1 rfl).1
  refine ⟨rfl, rfl, ?_⟩
  rw [h]
  decide

end Atlas
